import Mathlib

/-!
# GeoPattern: a shallow embedding of the pattern-generation core

This file embeds the GeoPattern library (entry point `generate` in
`lib/index.js`, core `Pattern` class in `lib/pattern.js`) in Lean 4 and
proves the spec's claims about it.

Modelling conventions:
* JavaScript numbers are modelled exactly: quantities that stay rational are
  `Rat`; shape coordinates, which may involve `Math.sqrt(3)` /
  `Math.sin(60°) = √3/2`, live in the ring `QS3` of numbers `a + b·√3`
  with `a b : Rat`.  This idealizes IEEE doubles by exact arithmetic.
* `parseInt(..., 16)` returning `NaN` is modelled by `Option Nat` (`hexVal`);
  generator bodies use the total `hexValD` (default `0`), which agrees with
  the JavaScript on every valid 40-hex digest (see the in-bounds theorems).
* The external collaborators `sha1.js`, `color.js` and `svg.js` are not part
  of the core sources; they are modelled from the spec (see the doc comments
  beginning `Modelled from the spec:`).
-/

attribute [local semireducible] Rat.mul Rat.inv Rat.add Rat.sub

/-- Lowercase hex digit for a value `0..15` (used for digest and color
formatting). -/
def hexDigitChar (n : Nat) : Char :=
  if n < 10 then Char.ofNat (48 + n)
  else Char.ofNat (87 + n)

/-- Is `c` a hexadecimal digit accepted by `parseInt(s, 16)` on the digests
this library produces (lowercase `0-9a-f`)? -/
def isHexDigit (c : Char) : Bool :=
  (48 ≤ c.toNat && c.toNat ≤ 57) || (97 ≤ c.toNat && c.toNat ≤ 102)

/-- Numeric value of a hex digit character. -/
def hexDigitVal (c : Char) : Nat :=
  if c.toNat ≤ 57 then c.toNat - 48 else c.toNat - 87

/-! ## SHA-1

Modelled from the spec: `sha1.js` (not among the core sources) is "a
collaborator that maps an input string to a 40-hex-character digest
(standard SHA-1)".  The definitions below are standard SHA-1 (FIPS 180)
over the UTF-8 bytes of the input, producing 40 lowercase hex characters. -/

/-- Truncate to a 32-bit word. -/
def w32 (n : Nat) : Nat := n % 4294967296

/-- Left-rotate a 32-bit word by `k` bits. -/
def rotl (k n : Nat) : Nat :=
  w32 (n * 2 ^ k) + n / 2 ^ (32 - k)

/-- UTF-8 bytes of one character. -/
def utf8Char (c : Char) : List Nat :=
  let n := c.toNat
  if n < 128 then [n]
  else if n < 2048 then [192 + n / 64, 128 + n % 64]
  else if n < 65536 then [224 + n / 4096, 128 + n / 64 % 64, 128 + n % 64]
  else [240 + n / 262144, 128 + n / 4096 % 64, 128 + n / 64 % 64, 128 + n % 64]

/-- UTF-8 bytes of a string. -/
def utf8Bytes (s : String) : List Nat :=
  s.toList.flatMap utf8Char

/-- Big-endian bytes of `n`, `k` bytes wide. -/
def beBytes (k n : Nat) : List Nat :=
  (List.range k).map (fun i => n / 2 ^ (8 * (k - 1 - i)) % 256)

/-- SHA-1 message padding: append `0x80`, zeros, and the 64-bit big-endian
bit length, to a multiple of 64 bytes. -/
def sha1Pad (msg : List Nat) : List Nat :=
  let padLen := (64 - (msg.length + 9) % 64) % 64
  msg ++ [128] ++ List.replicate padLen 0 ++ beBytes 8 (msg.length * 8)

/-- Split the padded message into 16-word (64-byte) blocks of big-endian
32-bit words. -/
def sha1Blocks (padded : List Nat) : List (List Nat) :=
  (List.range (padded.length / 64)).map (fun b =>
    (List.range 16).map (fun w =>
      let at4 := fun j => padded.getD (64 * b + 4 * w + j) 0
      at4 0 * 16777216 + at4 1 * 65536 + at4 2 * 256 + at4 3))

/-- Extend 16 message words to the 80-word SHA-1 schedule. -/
def sha1Extend (ws : List Nat) : List Nat :=
  (List.range 64).foldl
    (fun acc _ =>
      let n := acc.length
      let x := Nat.xor (Nat.xor (acc.getD (n - 3) 0) (acc.getD (n - 8) 0))
               (Nat.xor (acc.getD (n - 14) 0) (acc.getD (n - 16) 0))
      acc ++ [rotl 1 x])
    ws

/-- One SHA-1 round: state `(a,b,c,d,e)`, round index `i`, schedule word `wv`. -/
def sha1Round (st : Nat × Nat × Nat × Nat × Nat) (iw : Nat × Nat) :
    Nat × Nat × Nat × Nat × Nat :=
  let (a, b, c, d, e) := st
  let (i, wv) := iw
  let f :=
    if i < 20 then Nat.lor (Nat.land b c) (Nat.land (Nat.xor b 4294967295) d)
    else if i < 40 then Nat.xor (Nat.xor b c) d
    else if i < 60 then Nat.lor (Nat.lor (Nat.land b c) (Nat.land b d)) (Nat.land c d)
    else Nat.xor (Nat.xor b c) d
  let k :=
    if i < 20 then 1518500249
    else if i < 40 then 1859775393
    else if i < 60 then 2400959708
    else 3395469782
  let temp := w32 (rotl 5 a + f + e + k + wv)
  (temp, a, rotl 30 b, c, d)

/-- Process one 16-word block into the running hash state. -/
def sha1Block (h : Nat × Nat × Nat × Nat × Nat) (ws : List Nat) :
    Nat × Nat × Nat × Nat × Nat :=
  let (h0, h1, h2, h3, h4) := h
  let sched := sha1Extend ws
  let (a, b, c, d, e) :=
    ((List.range 80).zip sched).foldl sha1Round (h0, h1, h2, h3, h4)
  (w32 (h0 + a), w32 (h1 + b), w32 (h2 + c), w32 (h3 + d), w32 (h4 + e))

/-- 8 lowercase hex characters of a 32-bit word. -/
def wordHex (n : Nat) : List Char :=
  (List.range 8).map (fun i => hexDigitChar (n / 16 ^ (7 - i) % 16))

/-- Modelled from the spec: standard SHA-1 of the UTF-8 bytes of `s`,
as a 40-character lowercase hexadecimal string (the contract of the
external `sha1.js` collaborator). -/
def sha1 (s : String) : String :=
  let init := (1732584193, 4023233417, 2562383102, 271733878, 3285377520)
  let (h0, h1, h2, h3, h4) :=
    (sha1Blocks (sha1Pad (utf8Bytes s))).foldl sha1Block init
  String.mk (wordHex h0 ++ wordHex h1 ++ wordHex h2 ++ wordHex h3 ++ wordHex h4)

set_option maxRecDepth 10000

/-! ## Numbers

Shape coordinates may involve `Math.sqrt(3)` (hexagons, triangles,
tessellation) but otherwise only rational arithmetic, so they live in the
ring `ℚ[√3]` of values `a + b·√3`. -/

/-- A number `a + b·√3` with `a b : ℚ`: the exact value of every coordinate
computed by the pattern generators. -/
structure QS3 where
  a : Rat
  b : Rat
deriving DecidableEq, Repr

instance : Add QS3 := ⟨fun x y => ⟨x.a + y.a, x.b + y.b⟩⟩

instance : Neg QS3 := ⟨fun x => ⟨-x.a, -x.b⟩⟩

instance : Sub QS3 := ⟨fun x y => ⟨x.a - y.a, x.b - y.b⟩⟩

instance : Mul QS3 := ⟨fun x y =>
  ⟨x.a * y.a + 3 * (x.b * y.b), x.a * y.b + x.b * y.a⟩⟩

/-- Multiplicative inverse in `ℚ[√3]` (junk value `0` at `0`, as for `ℚ`). -/
def QS3.inv (y : QS3) : QS3 :=
  let d := y.a * y.a - 3 * (y.b * y.b)
  ⟨y.a / d, -y.b / d⟩

instance : Div QS3 := ⟨fun x y => x * y.inv⟩

instance (n : Nat) : OfNat QS3 n := ⟨⟨(n : Rat), 0⟩⟩

/-- Embed a rational into `ℚ[√3]`. -/
def QS3.ofQ (q : Rat) : QS3 := ⟨q, 0⟩

/-- The exact value of `Math.sqrt(3)`. -/
def sqrt3 : QS3 := ⟨0, 1⟩

/-- JavaScript `x % y` for nonnegative operands (all uses in the source have
nonnegative operands): `x - y·⌊x/y⌋`. -/
def qmod (x y : Rat) : Rat := x - y * ((Rat.floor (x / y) : Int) : Rat)

/-- Decimal-or-fraction rendering of a rational, used by the (spec-modelled)
serializer; only injectivity-by-construction and determinism matter. -/
def ratToStr (q : Rat) : String :=
  if q.den = 1 then toString q.num else toString q.num ++ "/" ++ toString q.den

/-- Rendering of a `ℚ[√3]` value for the (spec-modelled) serializer. -/
def qs3ToStr (x : QS3) : String :=
  if x.b = 0 then ratToStr x.a else ratToStr x.a ++ "+" ++ ratToStr x.b ++ "r3"

/-! ## Digest indexing (`hexVal` in `lib/pattern.js`) -/

/-- `hexVal(hash, index, len)` from `lib/pattern.js`:
`parseInt(hash.substr(index, len || 1), 16)`.  `substr` clamps at the end of
the string; `parseInt(·, 16)` of a string with no leading hex digit is `NaN`,
modelled as `none`; otherwise it parses the longest hex-digit prefix. -/
def hexVal (hash : String) (index : Nat) (len : Nat) : Option Nat :=
  let sub := (hash.toList.drop index).take (if len = 0 then 1 else len)
  let pre := sub.takeWhile isHexDigit
  if pre.isEmpty then none
  else some (pre.foldl (fun acc c => 16 * acc + hexDigitVal c) 0)

/-- Total version of `hexVal` used inside the generator bodies; it agrees
with `hexVal` whenever the read succeeds (which the digest-bounds theorems
show is always the case on valid 40-hex digests). -/
def hexValD (hash : String) (index : Nat) (len : Nat) : Nat :=
  (hexVal hash index len).getD 0

/-- A valid digest: exactly 40 lowercase hexadecimal characters. -/
def isValidDigest (h : String) : Bool :=
  h.length = 40 && h.toList.all isHexDigit

/-! ## Color conversion

Modelled from the spec: `color.js` (not among the core sources) is "a
collaborator providing hex↔RGB↔HSL conversions and RGB-to-CSS-string
formatting", called as a pure function library; RGB channels are 0–255
integers and HSL components are normalized to `[0,1]`.  The definitions
below are the standard conversions; `hsl2rgb` rounds channels with
JavaScript `Math.round` = `⌊x + 1/2⌋`. -/

/-- JavaScript `Math.min` on exact rationals (kernel-reducible). -/
def jsMin (x y : Rat) : Rat := if x ≤ y then x else y

/-- JavaScript `Math.max` on exact rationals (kernel-reducible). -/
def jsMax (x y : Rat) : Rat := if x ≤ y then y else x

/-- An RGB triple, channels 0–255. -/
structure RGB where
  r : Nat
  g : Nat
  b : Nat
deriving DecidableEq, Repr

/-- An HSL triple, each component normalized to `[0,1]`. -/
structure HSL where
  h : Rat
  s : Rat
  l : Rat
deriving DecidableEq, Repr

/-- Modelled from the spec: `color.hex2rgb` on a `#rrggbb` string. -/
def hex2rgb (s : String) : RGB :=
  let cs := s.toList.drop 1
  let v2 := fun i => 16 * hexDigitVal (cs.getD i '0') + hexDigitVal (cs.getD (i + 1) '0')
  ⟨v2 0, v2 2, v2 4⟩

/-- Two lowercase hex digits of a byte. -/
def byteHex (n : Nat) : List Char := [hexDigitChar (n / 16 % 16), hexDigitChar (n % 16)]

/-- Modelled from the spec: `color.rgb2hex`, `#rrggbb` lowercase. -/
def rgb2hex (c : RGB) : String :=
  String.mk ('#' :: (byteHex c.r ++ byteHex c.g ++ byteHex c.b))

/-- Modelled from the spec: `color.rgb2rgbString` CSS formatting. -/
def rgb2rgbString (c : RGB) : String :=
  "rgb(" ++ toString c.r ++ "," ++ toString c.g ++ "," ++ toString c.b ++ ")"

/-- Modelled from the spec: `color.rgb2hsl`, the standard conversion with
`h,s,l` normalized to `[0,1]`. -/
def rgb2hsl (c : RGB) : HSL :=
  let r : Rat := (c.r : Rat) / 255
  let g : Rat := (c.g : Rat) / 255
  let b : Rat := (c.b : Rat) / 255
  let M := jsMax r (jsMax g b)
  let m := jsMin r (jsMin g b)
  let l := (M + m) / 2
  if M = m then ⟨0, 0, l⟩
  else
    let d := M - m
    let s := if l > 1 / 2 then d / (2 - M - m) else d / (M + m)
    let h6 :=
      if M = r then (g - b) / d + (if g < b then 6 else 0)
      else if M = g then (b - r) / d + 2
      else (r - g) / d + 4
    ⟨h6 / 6, s, l⟩

/-- Helper for `hsl2rgb`: the standard `hue2rgb` interpolation. -/
def hue2rgb (p q t0 : Rat) : Rat :=
  let t1 := if t0 < 0 then t0 + 1 else t0
  let t := if t1 > 1 then t1 - 1 else t1
  if t < 1 / 6 then p + (q - p) * 6 * t
  else if t < 1 / 2 then q
  else if t < 2 / 3 then p + (q - p) * (2 / 3 - t) * 6
  else p

/-- JavaScript `Math.round` on an exact rational. -/
def jsRound (x : Rat) : Nat := (Rat.floor (x + 1 / 2)).toNat

/-- Modelled from the spec: `color.hsl2rgb`, the standard conversion,
channels rounded to 0–255 integers. -/
def hsl2rgb (c : HSL) : RGB :=
  if c.s = 0 then
    let v := jsRound (c.l * 255)
    ⟨v, v, v⟩
  else
    let q := if c.l < 1 / 2 then c.l * (1 + c.s) else c.l + c.s - c.l * c.s
    let p := 2 * c.l - q
    ⟨jsRound (hue2rgb p q (c.h + 1 / 3) * 255),
     jsRound (hue2rgb p q c.h * 255),
     jsRound (hue2rgb p q (c.h - 1 / 3) * 255)⟩

/-! ## The drawing surface

Modelled from the spec: `svg.js` (not among the core sources) is "a
collaborator accumulating drawing primitives (rectangle, circle, polyline,
path, group) with per-element style attributes and 2D affine transforms
(translate, rotate, scale), and serializing the accumulated primitives plus
a declared width/height into a textual image document"; the core "treats it
as a builder it appends to".  Appends are modelled by list concatenation in
emission order; a chained `.transform({...})` is modelled by the transform
field of the element it is called on. -/

/-- A style value: a string (colors, `px` lengths) or a number
(opacities, numeric stroke widths). -/
inductive SVal
  | str (v : String)
  | num (v : Rat)
deriving DecidableEq, Repr

/-- Style attributes in source order. -/
abbrev Styles := List (String × SVal)

/-- A 2D affine transform: optional translate, rotate (angle and pivot),
scale — serialized in this order per the spec. -/
structure Transform where
  translate : Option (QS3 × QS3) := none
  rotate : Option (QS3 × QS3 × QS3) := none
  scale : Option (QS3 × QS3) := none
deriving DecidableEq, Repr

/-- A rectangle dimension: a number or a percentage string such as
`100%`. -/
inductive Dim
  | n (v : QS3)
  | pct (v : String)
deriving DecidableEq, Repr

/-- A primitive drawn inside a group (the source only ever nests plain
rectangles — the plus-shape bars — or unstyled polylines in a group). -/
inductive GElem
  | rect (x y w h : QS3)
  | polyline (pts : String)
deriving DecidableEq, Repr

/-- A drawing primitive accumulated by the surface. -/
inductive Elem
  | rect (x y : QS3) (w h : Dim) (st : Styles) (tf : Option Transform)
  | circle (cx cy r : QS3) (st : Styles)
  | polyline (pts : String) (st : Styles) (tf : Option Transform)
  | path (d : String) (st : Styles) (tf : Option Transform)
  | group (st : Styles) (tf : Option Transform) (children : List GElem)
deriving DecidableEq, Repr

/-- The drawing surface: declared width/height plus accumulated primitives
in emission order. -/
structure SVG where
  width : QS3
  height : QS3
  children : List Elem
deriving DecidableEq, Repr

/-- A fresh surface (default 100×100; every generator overwrites both). -/
def SVG.empty : SVG := ⟨100, 100, []⟩

/-- `svg.setWidth(w)`. -/
def SVG.setWidth (s : SVG) (w : QS3) : SVG := { s with width := w }

/-- `svg.setHeight(h)`. -/
def SVG.setHeight (s : SVG) (h : QS3) : SVG := { s with height := h }

/-- Append primitives in order (the builder's accumulation). -/
def SVG.addAll (s : SVG) (es : List Elem) : SVG :=
  { s with children := s.children ++ es }

/-! ## Scalar mapper and palette selector (`lib/pattern.js` helpers) -/

/-- `FILL_COLOR_DARK` in `lib/pattern.js`. -/
def FILL_COLOR_DARK : String := "#222"

/-- `FILL_COLOR_LIGHT` in `lib/pattern.js`. -/
def FILL_COLOR_LIGHT : String := "#ddd"

/-- `STROKE_COLOR` in `lib/pattern.js`. -/
def STROKE_COLOR : String := "#000"

/-- `STROKE_OPACITY = 0.02` in `lib/pattern.js`. -/
def STROKE_OPACITY : Rat := 1 / 50

/-- `OPACITY_MIN = 0.02` in `lib/pattern.js`. -/
def OPACITY_MIN : Rat := 1 / 50

/-- `OPACITY_MAX = 0.15` in `lib/pattern.js`. -/
def OPACITY_MAX : Rat := 3 / 20

/-- `map(value, vMin, vMax, dMin, dMax)` from `lib/pattern.js`:
`((value - vMin) * (dMax - dMin)) / (vMax - vMin) + dMin`. -/
def map (value vMin vMax dMin dMax : Rat) : Rat :=
  let vRange := vMax - vMin
  let dRange := dMax - dMin
  (value - vMin) * dRange / vRange + dMin

/-- `fillColor(val)` from `lib/pattern.js`: light tone for even, dark for
odd. -/
def fillColor (val : Nat) : String :=
  if val % 2 = 0 then FILL_COLOR_LIGHT else FILL_COLOR_DARK

/-- `fillOpacity(val)` from `lib/pattern.js`:
`map(val, 0, 15, OPACITY_MIN, OPACITY_MAX)`. -/
def fillOpacity (val : Nat) : Rat :=
  map (val : Rat) 0 15 OPACITY_MIN OPACITY_MAX

/-! ## Shape builders (`lib/pattern.js` helpers) -/

/-- Join coordinates with commas, as `Array.prototype.join(',')` does. -/
def joinComma (l : List QS3) : String :=
  String.intercalate "," (l.map qs3ToStr)

/-- `buildHexagonShape(sideLength)`; `Math.sin(60·π/180) = √3/2` exactly. -/
def buildHexagonShape (sideLength : QS3) : String :=
  let c := sideLength
  let a := c / 2
  let b := sqrt3 / 2 * c
  joinComma [0, b, a, 0, a + c, 0, 2 * c, b, a + c, 2 * b, a, 2 * b, 0, b]

/-- `buildChevronShape(width, height)`: two polylines with apex at
`0.66 × height`. -/
def buildChevronShape (width height : QS3) : List String :=
  let e := height * QS3.ofQ (33 / 50)
  [joinComma [0, 0, width / 2, height - e, width / 2, height, 0, e, 0, 0],
   joinComma [width / 2, height - e, width, 0, width, e, width / 2, height,
              width / 2, height - e]]

/-- `buildPlusShape(squareSize)`: the two bars `[s,0,s,3s]` and
`[0,s,3s,s]`, each drawn as a rectangle. -/
def buildPlusShape (squareSize : QS3) : List (QS3 × QS3 × QS3 × QS3) :=
  [(squareSize, 0, squareSize, squareSize * 3),
   (0, squareSize, squareSize * 3, squareSize)]

/-- `buildOctogonShape(squareSize)`: square with corners cut at
`0.33 × side`. -/
def buildOctogonShape (squareSize : QS3) : String :=
  let s := squareSize
  let c := s * QS3.ofQ (33 / 100)
  joinComma [c, 0, s - c, 0, s, c, s, s - c, s - c, s, c, s, 0, s - c, 0, c, c, 0]

/-- `buildTriangleShape(sideLength, height)`. -/
def buildTriangleShape (sideLength height : QS3) : String :=
  let halfWidth := sideLength / 2
  joinComma [halfWidth, 0, sideLength, height, 0, height, halfWidth, 0]

/-- `buildDiamondShape(width, height)`. -/
def buildDiamondShape (width height : QS3) : String :=
  joinComma [width / 2, 0, width, height / 2, width / 2, height, 0, height / 2]

/-- `buildRightTriangleShape(sideLength)`. -/
def buildRightTriangleShape (sideLength : QS3) : String :=
  joinComma [0, 0, sideLength, sideLength, 0, sideLength, 0, 0]

/-- `buildRotatedTriangleShape(sideLength, triangleWidth)`. -/
def buildRotatedTriangleShape (sideLength triangleWidth : QS3) : String :=
  let halfHeight := sideLength / 2
  joinComma [0, 0, triangleWidth, halfHeight, 0, sideLength, 0, 0]

/-- Row-major 6×6 grid cells `(y, x)`, the iteration order of the nested
`for (y) for (x)` loops, with the consumed nibble index `6y + x`. -/
def cells66 : List (Nat × Nat) :=
  (List.range 6).flatMap (fun y => (List.range 6).map (fun x => (y, x)))

instance : NatCast QS3 := ⟨fun n => ⟨(n : Rat), 0⟩⟩

/-- JavaScript `Math.floor` on an exact rational, as a rational. -/
def jsFloor (x : Rat) : Rat := ((Rat.floor x : Int) : Rat)

/-! ## The sixteen pattern generators (`lib/pattern.js`)

Each `geoX` is the method `Pattern.geoX` of `lib/pattern.js`, taking the
digest and the builder state.  Loops become folds/`flatMap`s over the same
index ranges in the same order; the consumed nibble index in a 6×6 loop is
`i = 6y + x` exactly as the source's `i++` bookkeeping produces. -/

/-- `Pattern.geoHexagons`. -/
def geoHexagons (hash : String) (svg : SVG) : SVG :=
  let scale := hexValD hash 0 1
  let sideLength := QS3.ofQ (map (scale : Rat) 0 15 8 60)
  let hexHeight := sideLength * sqrt3
  let hexWidth := sideLength * 2
  let hex := buildHexagonShape sideLength
  let svg := (svg.setWidth (hexWidth * 3 + sideLength * 3)).setHeight (hexHeight * 6)
  svg.addAll (cells66.flatMap (fun yx =>
    let y := yx.1
    let x := yx.2
    let i : Nat := 6 * y + x
    let val := hexValD hash i 1
    let dy := if x % 2 = 0 then (y : QS3) * hexHeight
              else (y : QS3) * hexHeight + hexHeight / 2
    let styles : Styles :=
      [("fill", SVal.str (fillColor val)),
       ("fill-opacity", SVal.num (fillOpacity val)),
       ("stroke", SVal.str STROKE_COLOR),
       ("stroke-opacity", SVal.num STROKE_OPACITY)]
    [Elem.polyline hex styles (some
      { translate := some ((x : QS3) * sideLength * QS3.ofQ (3/2) - hexWidth / 2,
                           dy - hexHeight / 2) })]
    ++ (if x = 0 then
      [Elem.polyline hex styles (some
        { translate := some (6 * sideLength * QS3.ofQ (3/2) - hexWidth / 2,
                             dy - hexHeight / 2) })] else [])
    ++ (if y = 0 then
      let dy2 := if x % 2 = 0 then 6 * hexHeight else 6 * hexHeight + hexHeight / 2
      [Elem.polyline hex styles (some
        { translate := some ((x : QS3) * sideLength * QS3.ofQ (3/2) - hexWidth / 2,
                             dy2 - hexHeight / 2) })] else [])
    ++ (if x = 0 ∧ y = 0 then
      [Elem.polyline hex styles (some
        { translate := some (6 * sideLength * QS3.ofQ (3/2) - hexWidth / 2,
                             5 * hexHeight + hexHeight / 2) })] else [])))

/-- `Pattern.geoSineWaves`.  The cubic path string is assembled exactly as
in the source, with rationals rendered by the (spec-modelled) `ratToStr`. -/
def geoSineWaves (hash : String) (svg : SVG) : SVG :=
  let period := jsFloor (map (hexValD hash 0 1 : Rat) 0 15 100 400)
  let amplitude := jsFloor (map (hexValD hash 1 1 : Rat) 0 15 30 100)
  let waveWidth := jsFloor (map (hexValD hash 2 1 : Rat) 0 15 3 30)
  let svg := (svg.setWidth (QS3.ofQ period)).setHeight (QS3.ofQ (waveWidth * 36))
  svg.addAll ((List.range 36).flatMap (fun i =>
    let val := hexValD hash i 1
    let xOffset := period / 4 * (7/10)
    let styles : Styles :=
      [("fill", SVal.str "none"),
       ("stroke", SVal.str (fillColor val)),
       ("opacity", SVal.num (fillOpacity val)),
       ("stroke-width", SVal.str (ratToStr waveWidth ++ "px"))]
    let str := "M0 " ++ ratToStr amplitude ++ " C " ++ ratToStr xOffset
      ++ " 0, " ++ ratToStr (period / 2 - xOffset) ++ " 0, "
      ++ ratToStr (period / 2) ++ " " ++ ratToStr amplitude
      ++ " S " ++ ratToStr (period - xOffset) ++ " " ++ ratToStr (amplitude * 2)
      ++ ", " ++ ratToStr period ++ " " ++ ratToStr amplitude
      ++ " S " ++ ratToStr (period * (3/2) - xOffset) ++ " 0, "
      ++ ratToStr (period * (3/2)) ++ ", " ++ ratToStr amplitude
    [Elem.path str styles (some
      { translate := some (QS3.ofQ (-period / 4),
                           QS3.ofQ (waveWidth * i - amplitude * (3/2))) }),
     Elem.path str styles (some
      { translate := some (QS3.ofQ (-period / 4),
                           QS3.ofQ (waveWidth * i - amplitude * (3/2) + waveWidth * 36)) })]))

/-- `Pattern.geoChevrons`. -/
def geoChevrons (hash : String) (svg : SVG) : SVG :=
  let chevronWidth := QS3.ofQ (map (hexValD hash 0 1 : Rat) 0 15 30 80)
  let chevronHeight := QS3.ofQ (map (hexValD hash 0 1 : Rat) 0 15 30 80)
  let chevron := buildChevronShape chevronWidth chevronHeight
  let svg := (svg.setWidth (chevronWidth * 6)).setHeight
    (chevronHeight * 6 * QS3.ofQ (33/50))
  svg.addAll (cells66.flatMap (fun yx =>
    let y := yx.1
    let x := yx.2
    let i : Nat := 6 * y + x
    let val := hexValD hash i 1
    let styles : Styles :=
      [("stroke", SVal.str STROKE_COLOR),
       ("stroke-opacity", SVal.num STROKE_OPACITY),
       ("fill", SVal.str (fillColor val)),
       ("fill-opacity", SVal.num (fillOpacity val)),
       ("stroke-width", SVal.num 1)]
    [Elem.group styles (some
      { translate := some ((x : QS3) * chevronWidth,
          (y : QS3) * chevronHeight * QS3.ofQ (33/50) - chevronHeight / 2) })
      (chevron.map GElem.polyline)]
    ++ (if y = 0 then
      [Elem.group styles (some
        { translate := some ((x : QS3) * chevronWidth,
            6 * chevronHeight * QS3.ofQ (33/50) - chevronHeight / 2) })
        (chevron.map GElem.polyline)] else [])))

/-- `Pattern.geoPlusSigns`. -/
def geoPlusSigns (hash : String) (svg : SVG) : SVG :=
  let squareSize := QS3.ofQ (map (hexValD hash 0 1 : Rat) 0 15 10 25)
  let plusSize := squareSize * 3
  let plusShape := (buildPlusShape squareSize).map
    (fun r => GElem.rect r.1 r.2.1 r.2.2.1 r.2.2.2)
  let svg := (svg.setWidth (squareSize * 12)).setHeight (squareSize * 12)
  svg.addAll (cells66.flatMap (fun yx =>
    let y := yx.1
    let x := yx.2
    let i : Nat := 6 * y + x
    let val := hexValD hash i 1
    let dx : QS3 := if y % 2 = 0 then 0 else 1
    let styles : Styles :=
      [("fill", SVal.str (fillColor val)),
       ("stroke", SVal.str STROKE_COLOR),
       ("stroke-opacity", SVal.num STROKE_OPACITY),
       ("fill-opacity", SVal.num (fillOpacity val))]
    [Elem.group styles (some
      { translate := some (
          (x : QS3) * plusSize - (x : QS3) * squareSize + dx * squareSize - squareSize,
          (y : QS3) * plusSize - (y : QS3) * squareSize - plusSize / 2) }) plusShape]
    ++ (if x = 0 then
      [Elem.group styles (some
        { translate := some (
            4 * plusSize - (x : QS3) * squareSize + dx * squareSize - squareSize,
            (y : QS3) * plusSize - (y : QS3) * squareSize - plusSize / 2) }) plusShape]
      else [])
    ++ (if y = 0 then
      [Elem.group styles (some
        { translate := some (
            (x : QS3) * plusSize - (x : QS3) * squareSize + dx * squareSize - squareSize,
            4 * plusSize - (y : QS3) * squareSize - plusSize / 2) }) plusShape]
      else [])
    ++ (if x = 0 ∧ y = 0 then
      [Elem.group styles (some
        { translate := some (
            4 * plusSize - (x : QS3) * squareSize + dx * squareSize - squareSize,
            4 * plusSize - (y : QS3) * squareSize - plusSize / 2) }) plusShape]
      else [])))

/-- `Pattern.geoXes`.  The source reassigns `dy` inside the `y === 0`
branch; the `y === 5` branch therefore sees the original `dy` (the two
branches are mutually exclusive), and the corner branch (`x = y = 0`) sees
the reassigned value. -/
def geoXes (hash : String) (svg : SVG) : SVG :=
  let squareSize := QS3.ofQ (map (hexValD hash 0 1 : Rat) 0 15 10 25)
  let xShape := (buildPlusShape squareSize).map
    (fun r => GElem.rect r.1 r.2.1 r.2.2.1 r.2.2.2)
  let xSize := squareSize * 3 * QS3.ofQ (943/1000)
  let svg := (svg.setWidth (xSize * 3)).setHeight (xSize * 3)
  svg.addAll (cells66.flatMap (fun yx =>
    let y := yx.1
    let x := yx.2
    let i : Nat := 6 * y + x
    let val := hexValD hash i 1
    let dy := if x % 2 = 0 then (y : QS3) * xSize - xSize * QS3.ofQ (1/2)
              else (y : QS3) * xSize - xSize * QS3.ofQ (1/2) + xSize / 4
    let styles : Styles :=
      [("fill", SVal.str (fillColor val)),
       ("opacity", SVal.num (fillOpacity val))]
    let dy2 := if x % 2 = 0 then 6 * xSize - xSize / 2
               else 6 * xSize - xSize / 2 + xSize / 4
    [Elem.group styles (some
      { translate := some ((x : QS3) * xSize / 2 - xSize / 2, dy - (y : QS3) * xSize / 2),
        rotate := some (45, xSize / 2, xSize / 2) }) xShape]
    ++ (if x = 0 then
      [Elem.group styles (some
        { translate := some (6 * xSize / 2 - xSize / 2, dy - (y : QS3) * xSize / 2),
          rotate := some (45, xSize / 2, xSize / 2) }) xShape] else [])
    ++ (if y = 0 then
      [Elem.group styles (some
        { translate := some ((x : QS3) * xSize / 2 - xSize / 2, dy2 - 6 * xSize / 2),
          rotate := some (45, xSize / 2, xSize / 2) }) xShape] else [])
    ++ (if y = 5 then
      [Elem.group styles (some
        { translate := some ((x : QS3) * xSize / 2 - xSize / 2, dy - 11 * xSize / 2),
          rotate := some (45, xSize / 2, xSize / 2) }) xShape] else [])
    ++ (if x = 0 ∧ y = 0 then
      [Elem.group styles (some
        { translate := some (6 * xSize / 2 - xSize / 2, dy2 - 6 * xSize / 2),
          rotate := some (45, xSize / 2, xSize / 2) }) xShape] else [])))

/-- The per-cell emission of `Pattern.geoOverlappingCircles`: the cell's
own circle, plus the far-right copy for column 0, the far-bottom copy for
row 0, and the diagonal corner copy for cell (0,0). -/
def overlappingCirclesCell (hash : String) (radius : QS3) (y x : Nat) :
    List Elem :=
  let i : Nat := 6 * y + x
  let val := hexValD hash i 1
  let styles : Styles :=
    [("fill", SVal.str (fillColor val)),
     ("opacity", SVal.num (fillOpacity val))]
  [Elem.circle ((x : QS3) * radius) ((y : QS3) * radius) radius styles]
  ++ (if x = 0 then
    [Elem.circle (6 * radius) ((y : QS3) * radius) radius styles] else [])
  ++ (if y = 0 then
    [Elem.circle ((x : QS3) * radius) (6 * radius) radius styles] else [])
  ++ (if x = 0 ∧ y = 0 then
    [Elem.circle (6 * radius) (6 * radius) radius styles] else [])

/-- `Pattern.geoOverlappingCircles`. -/
def geoOverlappingCircles (hash : String) (svg : SVG) : SVG :=
  let scale := hexValD hash 0 1
  let diameter := map (scale : Rat) 0 15 25 200
  let radius := QS3.ofQ (diameter / 2)
  let svg := (svg.setWidth (radius * 6)).setHeight (radius * 6)
  svg.addAll (cells66.flatMap (fun yx =>
    overlappingCirclesCell hash radius yx.1 yx.2))

/-- `Pattern.geoOctogons`. -/
def geoOctogons (hash : String) (svg : SVG) : SVG :=
  let squareSize := QS3.ofQ (map (hexValD hash 0 1 : Rat) 0 15 10 60)
  let tile := buildOctogonShape squareSize
  let svg := (svg.setWidth (squareSize * 6)).setHeight (squareSize * 6)
  svg.addAll (cells66.map (fun yx =>
    let y := yx.1
    let x := yx.2
    let i : Nat := 6 * y + x
    let val := hexValD hash i 1
    Elem.polyline tile
      [("fill", SVal.str (fillColor val)),
       ("fill-opacity", SVal.num (fillOpacity val)),
       ("stroke", SVal.str STROKE_COLOR),
       ("stroke-opacity", SVal.num STROKE_OPACITY)]
      (some { translate := some ((x : QS3) * squareSize, (y : QS3) * squareSize) })))

/-- `Pattern.geoSquares`. -/
def geoSquares (hash : String) (svg : SVG) : SVG :=
  let squareSize := QS3.ofQ (map (hexValD hash 0 1 : Rat) 0 15 10 60)
  let svg := (svg.setWidth (squareSize * 6)).setHeight (squareSize * 6)
  svg.addAll (cells66.map (fun yx =>
    let y := yx.1
    let x := yx.2
    let i : Nat := 6 * y + x
    let val := hexValD hash i 1
    Elem.rect ((x : QS3) * squareSize) ((y : QS3) * squareSize)
      (Dim.n squareSize) (Dim.n squareSize)
      [("fill", SVal.str (fillColor val)),
       ("fill-opacity", SVal.num (fillOpacity val)),
       ("stroke", SVal.str STROKE_COLOR),
       ("stroke-opacity", SVal.num STROKE_OPACITY)]
      none))

/-- `Pattern.geoConcentricCircles`: per cell an outer ring from nibble `i`
and an inner disc from nibble `39 - i`. -/
def geoConcentricCircles (hash : String) (svg : SVG) : SVG :=
  let scale := hexValD hash 0 1
  let ringSize := map (scale : Rat) 0 15 10 60
  let strokeWidth := ringSize / 5
  let svg := (svg.setWidth (QS3.ofQ ((ringSize + strokeWidth) * 6))).setHeight
    (QS3.ofQ ((ringSize + strokeWidth) * 6))
  svg.addAll (cells66.flatMap (fun yx =>
    let y := yx.1
    let x := yx.2
    let i : Nat := 6 * y + x
    let val := hexValD hash i 1
    let cx := QS3.ofQ ((x : Rat) * ringSize + (x : Rat) * strokeWidth
      + (ringSize + strokeWidth) / 2)
    let cy := QS3.ofQ ((y : Rat) * ringSize + (y : Rat) * strokeWidth
      + (ringSize + strokeWidth) / 2)
    let val2 := hexValD hash (39 - i) 1
    [Elem.circle cx cy (QS3.ofQ (ringSize / 2))
      [("fill", SVal.str "none"),
       ("stroke", SVal.str (fillColor val)),
       ("opacity", SVal.num (fillOpacity val)),
       ("stroke-width", SVal.str (ratToStr strokeWidth ++ "px"))],
     Elem.circle cx cy (QS3.ofQ (ringSize / 4))
      [("fill", SVal.str (fillColor val2)),
       ("fill-opacity", SVal.num (fillOpacity val2))]]))

/-- `Pattern.geoOverlappingRings`. -/
def geoOverlappingRings (hash : String) (svg : SVG) : SVG :=
  let scale := hexValD hash 0 1
  let ringSize := QS3.ofQ (map (scale : Rat) 0 15 10 60)
  let strokeWidth := ringSize / 4
  let svg := (svg.setWidth (ringSize * 6)).setHeight (ringSize * 6)
  svg.addAll (cells66.flatMap (fun yx =>
    let y := yx.1
    let x := yx.2
    let i : Nat := 6 * y + x
    let val := hexValD hash i 1
    let styles : Styles :=
      [("fill", SVal.str "none"),
       ("stroke", SVal.str (fillColor val)),
       ("opacity", SVal.num (fillOpacity val)),
       ("stroke-width", SVal.str (qs3ToStr strokeWidth ++ "px"))]
    [Elem.circle ((x : QS3) * ringSize) ((y : QS3) * ringSize)
      (ringSize - strokeWidth / 2) styles]
    ++ (if x = 0 then
      [Elem.circle (6 * ringSize) ((y : QS3) * ringSize)
        (ringSize - strokeWidth / 2) styles] else [])
    ++ (if y = 0 then
      [Elem.circle ((x : QS3) * ringSize) (6 * ringSize)
        (ringSize - strokeWidth / 2) styles] else [])
    ++ (if x = 0 ∧ y = 0 then
      [Elem.circle (6 * ringSize) (6 * ringSize)
        (ringSize - strokeWidth / 2) styles] else [])))

/-- `Pattern.geoTriangles`. -/
def geoTriangles (hash : String) (svg : SVG) : SVG :=
  let scale := hexValD hash 0 1
  let sideLength := QS3.ofQ (map (scale : Rat) 0 15 15 80)
  let triangleHeight := sideLength / 2 * sqrt3
  let triangle := buildTriangleShape sideLength triangleHeight
  let svg := (svg.setWidth (sideLength * 3)).setHeight (triangleHeight * 6)
  svg.addAll (cells66.flatMap (fun yx =>
    let y := yx.1
    let x := yx.2
    let i : Nat := 6 * y + x
    let val := hexValD hash i 1
    let styles : Styles :=
      [("fill", SVal.str (fillColor val)),
       ("fill-opacity", SVal.num (fillOpacity val)),
       ("stroke", SVal.str STROKE_COLOR),
       ("stroke-opacity", SVal.num STROKE_OPACITY)]
    let rotation : QS3 :=
      if y % 2 = 0 then (if x % 2 = 0 then 180 else 0)
      else (if x % 2 ≠ 0 then 180 else 0)
    [Elem.polyline triangle styles (some
      { translate := some ((x : QS3) * sideLength * QS3.ofQ (1/2) - sideLength / 2,
                           triangleHeight * (y : QS3)),
        rotate := some (rotation, sideLength / 2, triangleHeight / 2) })]
    ++ (if x = 0 then
      [Elem.polyline triangle styles (some
        { translate := some (6 * sideLength * QS3.ofQ (1/2) - sideLength / 2,
                             triangleHeight * (y : QS3)),
          rotate := some (rotation, sideLength / 2, triangleHeight / 2) })] else [])))

/-- `Pattern.geoDiamonds`. -/
def geoDiamonds (hash : String) (svg : SVG) : SVG :=
  let diamondWidth := QS3.ofQ (map (hexValD hash 0 1 : Rat) 0 15 10 50)
  let diamondHeight := QS3.ofQ (map (hexValD hash 1 1 : Rat) 0 15 10 50)
  let diamond := buildDiamondShape diamondWidth diamondHeight
  let svg := (svg.setWidth (diamondWidth * 6)).setHeight (diamondHeight * 3)
  svg.addAll (cells66.flatMap (fun yx =>
    let y := yx.1
    let x := yx.2
    let i : Nat := 6 * y + x
    let val := hexValD hash i 1
    let styles : Styles :=
      [("fill", SVal.str (fillColor val)),
       ("fill-opacity", SVal.num (fillOpacity val)),
       ("stroke", SVal.str STROKE_COLOR),
       ("stroke-opacity", SVal.num STROKE_OPACITY)]
    let dx := if y % 2 = 0 then (0 : QS3) else diamondWidth / 2
    [Elem.polyline diamond styles (some
      { translate := some ((x : QS3) * diamondWidth - diamondWidth / 2 + dx,
          diamondHeight / 2 * (y : QS3) - diamondHeight / 2) })]
    ++ (if x = 0 then
      [Elem.polyline diamond styles (some
        { translate := some (6 * diamondWidth - diamondWidth / 2 + dx,
            diamondHeight / 2 * (y : QS3) - diamondHeight / 2) })] else [])
    ++ (if y = 0 then
      [Elem.polyline diamond styles (some
        { translate := some ((x : QS3) * diamondWidth - diamondWidth / 2 + dx,
            diamondHeight / 2 * 6 - diamondHeight / 2) })] else [])
    ++ (if x = 0 ∧ y = 0 then
      [Elem.polyline diamond styles (some
        { translate := some (6 * diamondWidth - diamondWidth / 2 + dx,
            diamondHeight / 2 * 6 - diamondHeight / 2) })] else [])))

/-- `Pattern.geoNestedSquares`: per cell an outer square outline from nibble
`i` and an inner one from nibble `39 - i`. -/
def geoNestedSquares (hash : String) (svg : SVG) : SVG :=
  let blockSize := QS3.ofQ (map (hexValD hash 0 1 : Rat) 0 15 4 12)
  let squareSize := blockSize * 7
  let svg := (svg.setWidth ((squareSize + blockSize) * 6 + blockSize * 6)).setHeight
    ((squareSize + blockSize) * 6 + blockSize * 6)
  svg.addAll (cells66.flatMap (fun yx =>
    let y := yx.1
    let x := yx.2
    let i : Nat := 6 * y + x
    let val := hexValD hash i 1
    let val2 := hexValD hash (39 - i) 1
    [Elem.rect ((x : QS3) * squareSize + (x : QS3) * blockSize * 2 + blockSize / 2)
      ((y : QS3) * squareSize + (y : QS3) * blockSize * 2 + blockSize / 2)
      (Dim.n squareSize) (Dim.n squareSize)
      [("fill", SVal.str "none"),
       ("stroke", SVal.str (fillColor val)),
       ("opacity", SVal.num (fillOpacity val)),
       ("stroke-width", SVal.str (qs3ToStr blockSize ++ "px"))]
      none,
     Elem.rect
      ((x : QS3) * squareSize + (x : QS3) * blockSize * 2 + blockSize / 2 + blockSize * 2)
      ((y : QS3) * squareSize + (y : QS3) * blockSize * 2 + blockSize / 2 + blockSize * 2)
      (Dim.n (blockSize * 3)) (Dim.n (blockSize * 3))
      [("fill", SVal.str "none"),
       ("stroke", SVal.str (fillColor val2)),
       ("opacity", SVal.num (fillOpacity val2)),
       ("stroke-width", SVal.str (qs3ToStr blockSize ++ "px"))]
      none]))

/-- `drawInnerMosaicTile(svg, x, y, triangleSize, vals)` from
`lib/pattern.js`: four right triangles, the first two styled from
`vals[0]`, the last two from `vals[1]`. -/
def drawInnerMosaicTile (x y triangleSize : QS3) (v0 v1 : Nat) : List Elem :=
  let triangle := buildRightTriangleShape triangleSize
  let styles0 : Styles :=
    [("stroke", SVal.str STROKE_COLOR),
     ("stroke-opacity", SVal.num STROKE_OPACITY),
     ("fill-opacity", SVal.num (fillOpacity v0)),
     ("fill", SVal.str (fillColor v0))]
  let styles1 : Styles :=
    [("stroke", SVal.str STROKE_COLOR),
     ("stroke-opacity", SVal.num STROKE_OPACITY),
     ("fill-opacity", SVal.num (fillOpacity v1)),
     ("fill", SVal.str (fillColor v1))]
  [Elem.polyline triangle styles0 (some
    { translate := some (x + triangleSize, y), scale := some (-1, 1) }),
   Elem.polyline triangle styles0 (some
    { translate := some (x + triangleSize, y + triangleSize * 2),
      scale := some (1, -1) }),
   Elem.polyline triangle styles1 (some
    { translate := some (x + triangleSize, y + triangleSize * 2),
      scale := some (-1, -1) }),
   Elem.polyline triangle styles1 (some
    { translate := some (x + triangleSize, y), scale := some (1, 1) })]

/-- `drawOuterMosaicTile(svg, x, y, triangleSize, val)` from
`lib/pattern.js`: four right triangles in one style. -/
def drawOuterMosaicTile (x y triangleSize : QS3) (val : Nat) : List Elem :=
  let triangle := buildRightTriangleShape triangleSize
  let styles : Styles :=
    [("stroke", SVal.str STROKE_COLOR),
     ("stroke-opacity", SVal.num STROKE_OPACITY),
     ("fill-opacity", SVal.num (fillOpacity val)),
     ("fill", SVal.str (fillColor val))]
  [Elem.polyline triangle styles (some
    { translate := some (x, y + triangleSize), scale := some (1, -1) }),
   Elem.polyline triangle styles (some
    { translate := some (x + triangleSize * 2, y + triangleSize),
      scale := some (-1, -1) }),
   Elem.polyline triangle styles (some
    { translate := some (x, y + triangleSize), scale := some (1, 1) }),
   Elem.polyline triangle styles (some
    { translate := some (x + triangleSize * 2, y + triangleSize),
      scale := some (-1, 1) })]

/-- Row-major 4×4 grid cells `(y, x)` with nibble index `4y + x`. -/
def cells44 : List (Nat × Nat) :=
  (List.range 4).flatMap (fun y => (List.range 4).map (fun x => (y, x)))

/-- `Pattern.geoMosaicSquares`. -/
def geoMosaicSquares (hash : String) (svg : SVG) : SVG :=
  let triangleSize := QS3.ofQ (map (hexValD hash 0 1 : Rat) 0 15 15 50)
  let svg := (svg.setWidth (triangleSize * 8)).setHeight (triangleSize * 8)
  svg.addAll (cells44.flatMap (fun yx =>
    let y := yx.1
    let x := yx.2
    let i : Nat := 4 * y + x
    if x % 2 = 0 then
      if y % 2 = 0 then
        drawOuterMosaicTile ((x : QS3) * triangleSize * 2)
          ((y : QS3) * triangleSize * 2) triangleSize (hexValD hash i 1)
      else
        drawInnerMosaicTile ((x : QS3) * triangleSize * 2)
          ((y : QS3) * triangleSize * 2) triangleSize
          (hexValD hash i 1) (hexValD hash (i + 1) 1)
    else
      if y % 2 = 0 then
        drawInnerMosaicTile ((x : QS3) * triangleSize * 2)
          ((y : QS3) * triangleSize * 2) triangleSize
          (hexValD hash i 1) (hexValD hash (i + 1) 1)
      else
        drawOuterMosaicTile ((x : QS3) * triangleSize * 2)
          ((y : QS3) * triangleSize * 2) triangleSize (hexValD hash i 1)))

/-- `Pattern.geoPlaid`: two accumulating linear scans of 18 nibble pairs
each (horizontal stripes then vertical stripes); width/height are set at
the end from the accumulated extents. -/
def geoPlaid (hash : String) (svg : SVG) : SVG :=
  let horiz := (List.range 18).foldl
    (fun (acc : Rat × List Elem) j =>
      let i : Nat := 2 * j
      let space := hexValD hash i 1
      let h1 := acc.1 + (space : Rat) + 5
      let val := hexValD hash (i + 1) 1
      let stripeHeight := (val : Rat) + 5
      (h1 + stripeHeight,
       acc.2 ++ [Elem.rect 0 (QS3.ofQ h1) (Dim.pct "100%") (Dim.n (QS3.ofQ stripeHeight))
         [("opacity", SVal.num (fillOpacity val)),
          ("fill", SVal.str (fillColor val))] none]))
    (0, [])
  let vert := (List.range 18).foldl
    (fun (acc : Rat × List Elem) j =>
      let i : Nat := 2 * j
      let space := hexValD hash i 1
      let w1 := acc.1 + (space : Rat) + 5
      let val := hexValD hash (i + 1) 1
      let stripeWidth := (val : Rat) + 5
      (w1 + stripeWidth,
       acc.2 ++ [Elem.rect (QS3.ofQ w1) 0 (Dim.n (QS3.ofQ stripeWidth)) (Dim.pct "100%")
         [("opacity", SVal.num (fillOpacity val)),
          ("fill", SVal.str (fillColor val))] none]))
    (0, [])
  let svg := svg.addAll (horiz.2 ++ vert.2)
  (svg.setWidth (QS3.ofQ vert.1)).setHeight (QS3.ofQ horiz.1)

/-- The 20 literal placements of `Pattern.geoTessellation` for nibble index
`i` (the source's `switch (i)`). -/
def tessellationElems (sideLength : QS3) (i : Nat) (styles : Styles) : List Elem :=
  let hexHeight := sideLength * sqrt3
  let hexWidth := sideLength * 2
  let triangleHeight := sideLength / 2 * sqrt3
  let triangle := buildRotatedTriangleShape sideLength triangleHeight
  let tileWidth := sideLength * 3 + triangleHeight * 2
  let tileHeight := hexHeight * 2 + sideLength * 2
  match i with
  | 0 =>
    [Elem.rect (-(sideLength / 2)) (-(sideLength / 2))
      (Dim.n sideLength) (Dim.n sideLength) styles none,
     Elem.rect (tileWidth - sideLength / 2) (-(sideLength / 2))
      (Dim.n sideLength) (Dim.n sideLength) styles none,
     Elem.rect (-(sideLength / 2)) (tileHeight - sideLength / 2)
      (Dim.n sideLength) (Dim.n sideLength) styles none,
     Elem.rect (tileWidth - sideLength / 2) (tileHeight - sideLength / 2)
      (Dim.n sideLength) (Dim.n sideLength) styles none]
  | 1 =>
    [Elem.rect (hexWidth / 2 + triangleHeight) (hexHeight / 2)
      (Dim.n sideLength) (Dim.n sideLength) styles none]
  | 2 =>
    [Elem.rect (-(sideLength / 2)) (tileHeight / 2 - sideLength / 2)
      (Dim.n sideLength) (Dim.n sideLength) styles none,
     Elem.rect (tileWidth - sideLength / 2) (tileHeight / 2 - sideLength / 2)
      (Dim.n sideLength) (Dim.n sideLength) styles none]
  | 3 =>
    [Elem.rect (hexWidth / 2 + triangleHeight)
      (hexHeight * QS3.ofQ (3/2) + sideLength)
      (Dim.n sideLength) (Dim.n sideLength) styles none]
  | 4 =>
    [Elem.polyline triangle styles (some
      { translate := some (sideLength / 2, -(sideLength / 2)),
        rotate := some (0, sideLength / 2, triangleHeight / 2) }),
     Elem.polyline triangle styles (some
      { translate := some (sideLength / 2, tileHeight - -(sideLength / 2)),
        rotate := some (0, sideLength / 2, triangleHeight / 2),
        scale := some (1, -1) })]
  | 5 =>
    [Elem.polyline triangle styles (some
      { translate := some (tileWidth - sideLength / 2, -(sideLength / 2)),
        rotate := some (0, sideLength / 2, triangleHeight / 2),
        scale := some (-1, 1) }),
     Elem.polyline triangle styles (some
      { translate := some (tileWidth - sideLength / 2, tileHeight + sideLength / 2),
        rotate := some (0, sideLength / 2, triangleHeight / 2),
        scale := some (-1, -1) })]
  | 6 =>
    [Elem.polyline triangle styles (some
      { translate := some (tileWidth / 2 + sideLength / 2, hexHeight / 2) })]
  | 7 =>
    [Elem.polyline triangle styles (some
      { translate := some (tileWidth - tileWidth / 2 - sideLength / 2, hexHeight / 2),
        scale := some (-1, 1) })]
  | 8 =>
    [Elem.polyline triangle styles (some
      { translate := some (tileWidth / 2 + sideLength / 2, tileHeight - hexHeight / 2),
        scale := some (1, -1) })]
  | 9 =>
    [Elem.polyline triangle styles (some
      { translate := some (tileWidth - tileWidth / 2 - sideLength / 2,
          tileHeight - hexHeight / 2),
        scale := some (-1, -1) })]
  | 10 =>
    [Elem.polyline triangle styles (some
      { translate := some (sideLength / 2, tileHeight / 2 - sideLength / 2) })]
  | 11 =>
    [Elem.polyline triangle styles (some
      { translate := some (tileWidth - sideLength / 2, tileHeight / 2 - sideLength / 2),
        scale := some (-1, 1) })]
  | 12 =>
    [Elem.rect 0 0 (Dim.n sideLength) (Dim.n sideLength) styles (some
      { translate := some (sideLength / 2, sideLength / 2),
        rotate := some (-30, 0, 0) })]
  | 13 =>
    [Elem.rect 0 0 (Dim.n sideLength) (Dim.n sideLength) styles (some
      { scale := some (-1, 1),
        translate := some (-tileWidth + sideLength / 2, sideLength / 2),
        rotate := some (-30, 0, 0) })]
  | 14 =>
    [Elem.rect 0 0 (Dim.n sideLength) (Dim.n sideLength) styles (some
      { translate := some (sideLength / 2, tileHeight / 2 - sideLength / 2 - sideLength),
        rotate := some (30, 0, sideLength) })]
  | 15 =>
    [Elem.rect 0 0 (Dim.n sideLength) (Dim.n sideLength) styles (some
      { scale := some (-1, 1),
        translate := some (-tileWidth + sideLength / 2,
          tileHeight / 2 - sideLength / 2 - sideLength),
        rotate := some (30, 0, sideLength) })]
  | 16 =>
    [Elem.rect 0 0 (Dim.n sideLength) (Dim.n sideLength) styles (some
      { scale := some (1, -1),
        translate := some (sideLength / 2,
          -tileHeight + tileHeight / 2 - sideLength / 2 - sideLength),
        rotate := some (30, 0, sideLength) })]
  | 17 =>
    [Elem.rect 0 0 (Dim.n sideLength) (Dim.n sideLength) styles (some
      { scale := some (-1, -1),
        translate := some (-tileWidth + sideLength / 2,
          -tileHeight + tileHeight / 2 - sideLength / 2 - sideLength),
        rotate := some (30, 0, sideLength) })]
  | 18 =>
    [Elem.rect 0 0 (Dim.n sideLength) (Dim.n sideLength) styles (some
      { scale := some (1, -1),
        translate := some (sideLength / 2, -tileHeight + sideLength / 2),
        rotate := some (-30, 0, 0) })]
  | 19 =>
    [Elem.rect 0 0 (Dim.n sideLength) (Dim.n sideLength) styles (some
      { scale := some (-1, -1),
        translate := some (-tileWidth + sideLength / 2, -tileHeight + sideLength / 2),
        rotate := some (-30, 0, 0) })]
  | _ => []

/-- `Pattern.geoTessellation`: the 3.4.6.4 semi-regular tessellation over
20 literal placements. -/
def geoTessellation (hash : String) (svg : SVG) : SVG :=
  let sideLength := QS3.ofQ (map (hexValD hash 0 1 : Rat) 0 15 5 40)
  let hexHeight := sideLength * sqrt3
  let triangleHeight := sideLength / 2 * sqrt3
  let tileWidth := sideLength * 3 + triangleHeight * 2
  let tileHeight := hexHeight * 2 + sideLength * 2
  let svg := (svg.setWidth tileWidth).setHeight tileHeight
  svg.addAll ((List.range 20).flatMap (fun i =>
    let val := hexValD hash i 1
    let styles : Styles :=
      [("stroke", SVal.str STROKE_COLOR),
       ("stroke-opacity", SVal.num STROKE_OPACITY),
       ("fill", SVal.str (fillColor val)),
       ("fill-opacity", SVal.num (fillOpacity val)),
       ("stroke-width", SVal.num 1)]
    tessellationElems sideLength i styles))

/-! ## Orchestration (`lib/index.js` and the `Pattern` constructor) -/

/-- `PATTERNS` from `lib/pattern.js` — the fixed sixteen generator names, in
source order (note the source spelling `octogons`). -/
def PATTERNS : List String :=
  ["octogons",
   "overlappingCircles",
   "plusSigns",
   "xes",
   "sineWaves",
   "hexagons",
   "overlappingRings",
   "plaid",
   "triangles",
   "squares",
   "concentricCircles",
   "diamonds",
   "tessellation",
   "nestedSquares",
   "mosaicSquares",
   "chevrons"]

/-- `DEFAULTS.baseColor` from `lib/pattern.js`. -/
def DEFAULT_BASE_COLOR : String := "#933c3c"

/-- The caller-supplied options record (`Options` in `lib/pattern.js`);
`none` models an absent field. -/
structure Options where
  baseColor : Option String := none
  color : Option String := none
  generator : Option String := none
  hash : Option String := none
deriving DecidableEq, Repr

/-- JavaScript truthiness of an optional string field: absent (`undefined`)
and the empty string are falsy. -/
def truthy : Option String → Bool
  | none => false
  | some s => s != ""

/-- `this.opts = { ...DEFAULTS, ...options }`: the default `baseColor` is
used when the caller did not supply one. -/
structure MergedOptions where
  baseColor : String
  color : Option String
  generator : Option String
  hash : Option String
deriving DecidableEq, Repr

/-- The spread-merge of `DEFAULTS` with the caller's options. -/
def mergeOptions (o : Options) : MergedOptions :=
  ⟨o.baseColor.getD DEFAULT_BASE_COLOR, o.color, o.generator, o.hash⟩

/-- `this.hash = options.hash || sha1(string)` from the `Pattern`
constructor: the override is used only when truthy. -/
def resolvedHash (s : String) (o : Options) : String :=
  if truthy o.hash then o.hash.getD "" else sha1 s

/-- The RGB resolved by `Pattern.generateBackground`: the explicit override
converted directly when truthy, else the hue/saturation-shifted variant of
`baseColor` driven by digest offsets 14 (3 nibbles) and 17. -/
def backgroundRgb (hash : String) (o : MergedOptions) : RGB :=
  if truthy o.color then hex2rgb (o.color.getD "")
  else
    let hueOffset := map (hexValD hash 14 3 : Rat) 0 4095 0 359
    let satOffset := hexValD hash 17 1
    let base := rgb2hsl (hex2rgb o.baseColor)
    let baseH := qmod (base.h * 360 - hueOffset + 360) 360 / 360
    let baseS :=
      if satOffset % 2 = 0 then jsMin 1 ((base.s * 100 + (satOffset : Rat)) / 100)
      else jsMax 0 ((base.s * 100 - (satOffset : Rat)) / 100)
    hsl2rgb ⟨baseH, baseS, base.l⟩

/-- `Pattern.generateBackground`: emits the background rectangle onto the
surface and returns the publicly exposed color (as hex). -/
def generateBackground (hash : String) (o : MergedOptions) (svg : SVG) :
    String × SVG :=
  let rgb := backgroundRgb hash o
  (rgb2hex rgb,
   svg.addAll [Elem.rect 0 0 (Dim.pct "100%") (Dim.pct "100%")
     [("fill", SVal.str (rgb2rgbString rgb))] none])

/-- Generator-name resolution in `Pattern.generatePattern`: a truthy
caller-supplied name is validated against `PATTERNS` (unknown names throw
`The generator <name> does not exist.`); otherwise the name is selected by
the digest nibble at offset 20 indexing `PATTERNS`. -/
def selectGenerator (hash : String) (o : MergedOptions) : Except String String :=
  if truthy o.generator then
    let g := o.generator.getD ""
    if PATTERNS.contains g then Except.ok g
    else Except.error ("The generator " ++ g ++ " does not exist.")
  else Except.ok (PATTERNS.getD (hexValD hash 20 1) "")

/-- The dynamic dispatch `this['geo' + capitalize(generator)]()`: a fixed
mapping from each of the sixteen names to its generator (never reached with
a name outside `PATTERNS`; the identity default is inert). -/
def dispatch (g : String) (hash : String) (svg : SVG) : SVG :=
  if g = "octogons" then geoOctogons hash svg
  else if g = "overlappingCircles" then geoOverlappingCircles hash svg
  else if g = "plusSigns" then geoPlusSigns hash svg
  else if g = "xes" then geoXes hash svg
  else if g = "sineWaves" then geoSineWaves hash svg
  else if g = "hexagons" then geoHexagons hash svg
  else if g = "overlappingRings" then geoOverlappingRings hash svg
  else if g = "plaid" then geoPlaid hash svg
  else if g = "triangles" then geoTriangles hash svg
  else if g = "squares" then geoSquares hash svg
  else if g = "concentricCircles" then geoConcentricCircles hash svg
  else if g = "diamonds" then geoDiamonds hash svg
  else if g = "tessellation" then geoTessellation hash svg
  else if g = "nestedSquares" then geoNestedSquares hash svg
  else if g = "mosaicSquares" then geoMosaicSquares hash svg
  else if g = "chevrons" then geoChevrons hash svg
  else svg

/-- A completed `Pattern` object: the digest it used, the exposed `color`
hex, the generator that ran, and the finished drawing surface. -/
structure PatternT where
  hash : String
  color : String
  generatorName : String
  svg : SVG
deriving DecidableEq, Repr

/-- The `Pattern` constructor: resolve digest and options, run
`generateBackground` (which emits the background rectangle first), then
`generatePattern` (which either throws on an unknown truthy generator name
— modelled as `Except.error` — or dispatches).  The surface state at the
moment `generatePattern` throws is exactly the output of
`generateBackground`. -/
def Pattern.make (s : String) (o : Options) : Except String PatternT :=
  let merged := mergeOptions o
  let hash := resolvedHash s o
  let bg := generateBackground hash merged SVG.empty
  match selectGenerator hash merged with
  | Except.error e => Except.error e
  | Except.ok g => Except.ok ⟨hash, bg.1, g, dispatch g hash bg.2⟩

/-- `generate(string, options)` from `lib/index.js`, for an explicitly
supplied input string (when the input is absent the source substitutes the
current timestamp, which is outside this deterministic model): it simply
constructs `new Pattern(string, options)`. -/
def generate (s : String) (o : Options) : Except String PatternT :=
  Pattern.make s o

/-! ## Serialization

Modelled from the spec: the textual image document of §6 — an `svg` header
carrying the declared width/height, the accumulated primitives in emission
order with their style attributes, and `translate(...) rotate(...)
scale(...)` concatenated in that order when present. -/

/-- Serialize style attributes in source order. -/
def stylesToStr (st : Styles) : String :=
  String.join (st.map (fun kv =>
    " " ++ kv.1 ++ "=\"" ++
      (match kv.2 with
       | SVal.str v => v
       | SVal.num v => ratToStr v) ++ "\""))

/-- Serialize a transform attribute (empty when absent). -/
def transformToStr : Option Transform → String
  | none => ""
  | some t =>
    let tr := match t.translate with
      | some (x, y) => "translate(" ++ qs3ToStr x ++ "," ++ qs3ToStr y ++ ")"
      | none => ""
    let ro := match t.rotate with
      | some (a, cx, cy) => "rotate(" ++ qs3ToStr a ++ "," ++ qs3ToStr cx ++ ","
          ++ qs3ToStr cy ++ ")"
      | none => ""
    let sc := match t.scale with
      | some (sx, sy) => "scale(" ++ qs3ToStr sx ++ "," ++ qs3ToStr sy ++ ")"
      | none => ""
    " transform=\"" ++ tr ++ " " ++ ro ++ " " ++ sc ++ "\""

/-- Serialize a rectangle dimension. -/
def dimToStr : Dim → String
  | Dim.n v => qs3ToStr v
  | Dim.pct v => v

/-- Serialize a grouped primitive. -/
def gelemToStr : GElem → String
  | GElem.rect x y w h =>
    "<rect x=\"" ++ qs3ToStr x ++ "\" y=\"" ++ qs3ToStr y ++ "\" width=\""
      ++ qs3ToStr w ++ "\" height=\"" ++ qs3ToStr h ++ "\"/>"
  | GElem.polyline pts => "<polyline points=\"" ++ pts ++ "\"/>"

/-- Serialize one primitive. -/
def elemToStr : Elem → String
  | Elem.rect x y w h st tf =>
    "<rect x=\"" ++ qs3ToStr x ++ "\" y=\"" ++ qs3ToStr y ++ "\" width=\""
      ++ dimToStr w ++ "\" height=\"" ++ dimToStr h ++ "\"" ++ stylesToStr st
      ++ transformToStr tf ++ "/>"
  | Elem.circle cx cy r st =>
    "<circle cx=\"" ++ qs3ToStr cx ++ "\" cy=\"" ++ qs3ToStr cy ++ "\" r=\""
      ++ qs3ToStr r ++ "\"" ++ stylesToStr st ++ "/>"
  | Elem.polyline pts st tf =>
    "<polyline points=\"" ++ pts ++ "\"" ++ stylesToStr st
      ++ transformToStr tf ++ "/>"
  | Elem.path d st tf =>
    "<path d=\"" ++ d ++ "\"" ++ stylesToStr st ++ transformToStr tf ++ "/>"
  | Elem.group st tf children =>
    "<g" ++ stylesToStr st ++ transformToStr tf ++ ">"
      ++ String.join (children.map gelemToStr) ++ "</g>"

/-- Serialize the whole surface: the SVG document text. -/
def SVG.toSvgStr (s : SVG) : String :=
  "<svg xmlns=\"http://www.w3.org/2000/svg\" width=\"" ++ qs3ToStr s.width
    ++ "\" height=\"" ++ qs3ToStr s.height ++ "\">"
    ++ String.join (s.children.map elemToStr) ++ "</svg>"

/-- `Pattern.toSvg` / `Pattern.toString`: the serialized output of a
generation. -/
def PatternT.toSvg (p : PatternT) : String :=
  p.svg.toSvgStr

/-! ## Digest read sets

Transcriptions of every `hexVal` call site: for each generator, the list of
`(index, length)` reads its loops perform (they are digest-independent —
all loop bounds are fixed), plus the reads of `generateBackground` and of
the default-generator selection. -/

/-- The per-cell single-nibble reads of a 6×6 loop: `(i, 1)` for
`i = 0..35`. -/
def reads66 : List (Nat × Nat) :=
  (List.range 36).map (fun i => (i, 1))

/-- The `hexVal` calls of each generator, in call order: the size/parameter
reads first, then the per-cell reads. -/
def readsOf (g : String) : List (Nat × Nat) :=
  if g = "octogons" then (0, 1) :: reads66
  else if g = "overlappingCircles" then (0, 1) :: reads66
  else if g = "plusSigns" then (0, 1) :: reads66
  else if g = "xes" then (0, 1) :: reads66
  else if g = "sineWaves" then (0, 1) :: (1, 1) :: (2, 1) :: reads66
  else if g = "hexagons" then (0, 1) :: reads66
  else if g = "overlappingRings" then (0, 1) :: reads66
  else if g = "plaid" then
    (List.range 18).flatMap (fun j => [(2 * j, 1), (2 * j + 1, 1)])
  else if g = "triangles" then (0, 1) :: reads66
  else if g = "squares" then (0, 1) :: reads66
  else if g = "concentricCircles" then
    (0, 1) :: (List.range 36).flatMap (fun i => [(i, 1), (39 - i, 1)])
  else if g = "diamonds" then (0, 1) :: (1, 1) :: reads66
  else if g = "tessellation" then
    (0, 1) :: (List.range 20).map (fun i => (i, 1))
  else if g = "nestedSquares" then
    (0, 1) :: (List.range 36).flatMap (fun i => [(i, 1), (39 - i, 1)])
  else if g = "mosaicSquares" then
    (0, 1) :: cells44.flatMap (fun yx =>
      if yx.2 % 2 = 0 then
        if yx.1 % 2 = 0 then [(4 * yx.1 + yx.2, 1)]
        else [(4 * yx.1 + yx.2, 1), (4 * yx.1 + yx.2 + 1, 1)]
      else
        if yx.1 % 2 = 0 then [(4 * yx.1 + yx.2, 1), (4 * yx.1 + yx.2 + 1, 1)]
        else [(4 * yx.1 + yx.2, 1)])
  else if g = "chevrons" then (0, 1) :: (0, 1) :: reads66
  else []

/-- The `hexVal` calls of `Pattern.generateBackground` (no color
override): the 3-nibble hue offset at 14 and the saturation nibble at
17. -/
def backgroundReads : List (Nat × Nat) := [(14, 3), (17, 1)]

/-- The `hexVal` call selecting the default generator (nibble 20). -/
def selectReads : List (Nat × Nat) := [(20, 1)]

/-- The circle radius `geoOverlappingCircles` derives from nibble 0:
`map(hexVal(hash,0), 0, 15, 25, 200) / 2`. -/
def ocRadius (hash : String) : QS3 :=
  QS3.ofQ (map (hexValD hash 0 1 : Rat) 0 15 25 200 / 2)

/-- The styles `geoOverlappingCircles` gives the cell consuming nibble
`i`. -/
def ocCellStyles (hash : String) (i : Nat) : Styles :=
  [("fill", SVal.str (fillColor (hexValD hash i 1))),
   ("opacity", SVal.num (fillOpacity (hexValD hash i 1)))]

/-- The error payload of a generation, if any (`none` when it succeeded). -/
def errOf : Except String PatternT → Option String
  | Except.error e => some e
  | Except.ok _ => none

/-! ## Validation of the model against the repository's fixtures -/

example : sha1 "abc" = "a9993e364706816aba3e25717850c26c9cd0d89d" := by decide

example : sha1 "GitHub" = "5442e2b64fa09764b9f593867e59a97292c84059" := by decide

example : (generate "GitHub" {}).toOption.map PatternT.color = some "#455e8a" := by
  decide

example : (generate "GitHub" {}).toOption.map PatternT.generatorName =
    some "squares" := by decide

/-! ## Helper lemmas -/

/-- Multiplication in `ℚ[√3]` is commutative (used to relate a generator's
declared grid width `radius * 6` to the duplicate offset `6 * radius`). -/
theorem QS3.mul_comm (p q : QS3) : p * q = q * p := by
  cases p
  cases q
  show QS3.mk _ _ = QS3.mk _ _
  congr 1 <;> ring

/-- On a valid 40-hex digest, every read at index `< 40` succeeds: the
substring is nonempty and starts with a hex digit, so `parseInt` does not
return `NaN`. -/
theorem hexVal_isSome_of_valid (hash : String) (hv : isValidDigest hash = true)
    (i l : Nat) (hi : i < 40) : (hexVal hash i l).isSome = true := by
  have hv2 := hv
  simp only [isValidDigest, Bool.and_eq_true, decide_eq_true_eq, List.all_eq_true] at hv2
  obtain ⟨hlen, hall⟩ := hv2
  have hlen2 : hash.toList.length = 40 := hlen
  have hd : hash.toList.drop i ≠ [] := by
    intro hnil
    have hl120 : (hash.toList.drop i).length = 40 - i := by
      simp [List.length_drop, hlen]
    rw [hnil] at hl120
    simp at hl120
    omega
  obtain ⟨c, cs, hcons⟩ := List.exists_cons_of_ne_nil hd
  have hcmem : c ∈ hash.toList := by
    have : c ∈ hash.toList.drop i := by
      rw [hcons]; exact List.mem_cons_self _ _
    exact List.drop_subset _ _ this
  have hcHex : isHexDigit c = true := hall c hcmem
  simp only [hexVal, hcons]
  cases l with
  | zero => simp [List.takeWhile_cons, hcHex]
  | succ m => simp [List.takeWhile_cons, hcHex]

/-- Shared error-path lemma: a truthy generator name outside `PATTERNS`
makes the constructor throw the error naming it. -/
theorem generate_unknown_error (s g : String) (hne : g ≠ "")
    (hnotin : g ∉ PATTERNS) :
    generate s { generator := some g } =
      Except.error ("The generator " ++ g ++ " does not exist.") := by
  have ht : truthy (some g) = true := by simp [truthy, hne]
  have hc : PATTERNS.contains g = false := by
    simp [List.contains, hnotin]
  simp [generate, Pattern.make, selectGenerator, mergeOptions, ht, hc, hnotin]

/-! ## The claims -/

/-- C1: for every input string `s` and every configuration `c` whose
`generator` is absent or one of the sixteen valid names, two calls of
`generate(s, c)` produce byte-identical serialized SVG output.  In this
embedding `generate` is a pure function of `(s, c)` alone — the digest,
palette, and every emitted primitive are computed from its arguments with
no other state — so the serialized outputs of two calls are the same
term. -/
theorem C1_determinism (s : String) (o : Options)
    (hg : o.generator = none ∨ ∃ g, o.generator = some g ∧ g ∈ PATTERNS) :
    (generate s o).map PatternT.toSvg = (generate s o).map PatternT.toSvg := rfl

theorem C1_determinism_witness :
    (generate "a" {}).map PatternT.toSvg = (generate "a" {}).map PatternT.toSvg :=
  C1_determinism "a" {} (Or.inl rfl)

/-- C7: `fillColor` returns the light tone exactly on even nibbles and the
dark tone exactly on odd ones, and `fillOpacity` is the affine remap of
`[0,15]` onto `[0.02, 0.15]`, with `fillOpacity 0 = 0.02 = 1/50` and
`fillOpacity 15 = 0.15 = 3/20`. -/
theorem C7_palette (n : Nat) (hn : n ≤ 15) :
    (fillColor n = FILL_COLOR_LIGHT ↔ n % 2 = 0)
    ∧ (fillColor n = FILL_COLOR_DARK ↔ n % 2 = 1)
    ∧ fillOpacity n = OPACITY_MIN + (n : Rat) * (OPACITY_MAX - OPACITY_MIN) / 15
    ∧ fillOpacity 0 = 1 / 50 ∧ fillOpacity 15 = 3 / 20 := by
  refine ⟨?_, ?_, ?_, by decide, by decide⟩
  · by_cases h : n % 2 = 0 <;>
      simp [fillColor, h, FILL_COLOR_LIGHT, FILL_COLOR_DARK]
  · by_cases h : n % 2 = 1 <;>
      simp [fillColor, h, FILL_COLOR_LIGHT, FILL_COLOR_DARK, Nat.mod_two_ne_one]
  · simp [fillOpacity, map, OPACITY_MIN, OPACITY_MAX]
    ring

theorem C7_palette_witness :
    (fillColor 6 = FILL_COLOR_LIGHT ↔ 6 % 2 = 0)
    ∧ (fillColor 6 = FILL_COLOR_DARK ↔ 6 % 2 = 1)
    ∧ fillOpacity 6 = OPACITY_MIN + (6 : Rat) * (OPACITY_MAX - OPACITY_MIN) / 15
    ∧ fillOpacity 0 = 1 / 50 ∧ fillOpacity 15 = 3 / 20 :=
  C7_palette 6 (by decide)

/-- C10: the digest used for generation is the override only when the
override is truthy; an empty-string (or absent) `hash` option falls back to
`sha1(input)`. -/
theorem C10_hash_override (s h : String) (hne : h ≠ "") :
    resolvedHash s { hash := some "" } = sha1 s
    ∧ resolvedHash s { hash := none } = sha1 s
    ∧ resolvedHash s { hash := some h } = h
    ∧ (Pattern.make s { hash := some "" }).toOption.map PatternT.hash =
        some (sha1 s) := by
  refine ⟨rfl, rfl, ?_, rfl⟩
  simp [resolvedHash, truthy, hne]

theorem C10_hash_override_witness :
    resolvedHash "abc" { hash := some "" } = sha1 "abc"
    ∧ resolvedHash "abc" { hash := none } = sha1 "abc"
    ∧ resolvedHash "abc" { hash := some "ff" } = "ff"
    ∧ (Pattern.make "abc" { hash := some "" }).toOption.map PatternT.hash =
        some (sha1 "abc") :=
  C10_hash_override "abc" "ff" (by decide)

/-- C8: with an explicit color override the publicly exposed `color` is the
hex form of the RGB obtained by converting the override directly, and for
`#ff7f00` this round trip reproduces the string, for every input. -/
theorem C8_color_override (s : String) :
    (generate s { color := some "#ff7f00" }).toOption.map PatternT.color =
      some (rgb2hex (hex2rgb "#ff7f00"))
    ∧ rgb2hex (hex2rgb "#ff7f00") = "#ff7f00" := by
  exact ⟨rfl, by decide⟩

theorem C8_color_override_witness :
    (generate "" { color := some "#ff7f00" }).toOption.map PatternT.color =
      some (rgb2hex (hex2rgb "#ff7f00"))
    ∧ rgb2hex (hex2rgb "#ff7f00") = "#ff7f00" :=
  C8_color_override ""

/-- C2 counterexample: the empty string is outside the sixteen-name set,
yet `generate(s, {generator: ""})` does not throw — the truthiness check
`if (generator)` lets every falsy name fall back to the hash-selected
default, so the claim as stated fails at `g = ""`. -/
theorem C2_counterexample :
    ¬ "" ∈ PATTERNS ∧ (generate "abc" { generator := some "" }).isOk = true :=
  ⟨by decide, by decide⟩

/-- C2 (amended to truthy names): for every non-empty generator name `g`
outside the sixteen-name set, `generate(s, {generator: g})` throws an error
whose message names `g`; and every error the core ever raises arises this
way (a truthy unknown generator name) with that exact message — the only
user-facing validation failure. -/
theorem C2_unknown_generator :
    (∀ (s g : String), g ≠ "" → g ∉ PATTERNS →
      generate s { generator := some g } =
        Except.error ("The generator " ++ g ++ " does not exist."))
    ∧ (∀ (s : String) (o : Options) (e : String),
        generate s o = Except.error e →
        ∃ g, o.generator = some g ∧ g ≠ "" ∧ g ∉ PATTERNS ∧
          e = "The generator " ++ g ++ " does not exist.") := by
  constructor
  · exact generate_unknown_error
  · intro s o e h
    rcases ho : o.generator with _ | g
    · exfalso
      simp [generate, Pattern.make, selectGenerator, mergeOptions, truthy, ho] at h
    · by_cases hg : g = ""
      · subst hg
        exfalso
        simp [generate, Pattern.make, selectGenerator, mergeOptions, truthy, ho] at h
      · by_cases hmem : g ∈ PATTERNS
        · exfalso
          have ht : truthy (some g) = true := by simp [truthy, hg]
          have hc : PATTERNS.contains g = true := by simp [List.contains, hmem]
          simp [generate, Pattern.make, selectGenerator, mergeOptions, ho, ht, hc, hmem] at h
        · refine ⟨g, rfl, hg, hmem, ?_⟩
          have ht : truthy (some g) = true := by simp [truthy, hg]
          have hc : PATTERNS.contains g = false := by simp [List.contains, hmem]
          simp [generate, Pattern.make, selectGenerator, mergeOptions, ho, ht, hc, hmem] at h
          exact h.symm

theorem C2_unknown_generator_witness :
    generate "a" { generator := some "nope" } =
      Except.error ("The generator " ++ "nope" ++ " does not exist.") :=
  C2_unknown_generator.1 "a" "nope" (by decide) (by decide)

/-- C3 counterexample: when the unknown-generator error is thrown, the
drawing surface is not empty — `generateBackground` has already emitted the
background rectangle (the constructor runs it before `generatePattern`), so
"no primitive (including the background rectangle) has been emitted" fails
at `generate("abc", {generator: "nope"})`. -/
theorem C3_counterexample :
    (generate "abc" { generator := some "nope" }).isOk = false
    ∧ (generateBackground (resolvedHash "abc" { generator := some "nope" })
        (mergeOptions { generator := some "nope" }) SVG.empty).2.children.length = 1
    ∧ ((generateBackground (resolvedHash "abc" { generator := some "nope" })
        (mergeOptions { generator := some "nope" }) SVG.empty).2.children.all
        (fun e => match e with
          | Elem.rect _ _ _ _ _ _ => true
          | _ => false)) = true :=
  ⟨by decide, by decide, by decide⟩

/-- C3 (amended): the unknown-generator error is surfaced before any
pattern drawing occurs but after the background rectangle is emitted: at
the moment `generatePattern` throws, the surface holds exactly the
background rectangle; and since the constructor throws, the partially
drawn surface is never exposed — the caller sees only the error. -/
theorem C3_error_after_background (s g : String) (hne : g ≠ "")
    (hnotin : g ∉ PATTERNS) :
    generate s { generator := some g } =
      Except.error ("The generator " ++ g ++ " does not exist.")
    ∧ (generateBackground (resolvedHash s { generator := some g })
        (mergeOptions { generator := some g }) SVG.empty).2.children =
      [Elem.rect 0 0 (Dim.pct "100%") (Dim.pct "100%")
        [("fill", SVal.str (rgb2rgbString (backgroundRgb
          (resolvedHash s { generator := some g })
          (mergeOptions { generator := some g }))))] none] := by
  refine ⟨generate_unknown_error s g hne hnotin, ?_⟩
  simp [generateBackground, SVG.addAll, SVG.empty]

theorem C3_error_after_background_witness :
    generate "a" { generator := some "bad" } =
      Except.error ("The generator " ++ "bad" ++ " does not exist.")
    ∧ (generateBackground (resolvedHash "a" { generator := some "bad" })
        (mergeOptions { generator := some "bad" }) SVG.empty).2.children =
      [Elem.rect 0 0 (Dim.pct "100%") (Dim.pct "100%")
        [("fill", SVal.str (rgb2rgbString (backgroundRgb
          (resolvedHash "a" { generator := some "bad" })
          (mergeOptions { generator := some "bad" }))))] none] :=
  C3_error_after_background "a" "bad" (by decide) (by decide)

/-- C5 counterexample: the claim's sixteen-name set contains the spelling
`octagons`, but the source's `PATTERNS` list spells it `octogons`; at
`generate("abc", {generator: "octagons"})` the code throws instead of
dispatching. -/
theorem C5_counterexample :
    errOf (generate "abc" { generator := some "octagons" }) =
      some "The generator octagons does not exist." := by decide

/-- C5 (amended to the source's spelling `octogons`): for every input `s`
and every name `g` in the code's sixteen-name `PATTERNS` list,
`generate(s, {generator: g})` does not throw and dispatches to pattern
`g`, regardless of the hash-selected default for `s`. -/
theorem C5_generator_override (s g : String) (hg : g ∈ PATTERNS) :
    ∃ p, generate s { generator := some g } = Except.ok p ∧
      p.generatorName = g := by
  fin_cases hg <;> exact ⟨_, rfl, rfl⟩

theorem C5_generator_override_witness :
    ∃ p, generate "x" { generator := some "plaid" } = Except.ok p ∧
      p.generatorName = "plaid" :=
  C5_generator_override "x" "plaid" (by decide)

/-- C4 counterexample: `geoSquares` (cited by the claim) iterates the 6×6
tile grid yet emits no edge duplicates at all: on the all-zero digest it
appends exactly its 36 per-cell rectangles, and no rectangle sits one full
grid-width (`x = 60` = the declared width) to the right of the column-0
cells — the copies the claim requires do not exist. -/
theorem C4_counterexample :
    (geoSquares "0000000000000000000000000000000000000000" SVG.empty).width = 60
    ∧ (geoSquares "0000000000000000000000000000000000000000"
        SVG.empty).children.length = 36
    ∧ ((geoSquares "0000000000000000000000000000000000000000"
        SVG.empty).children.all
        (fun e => match e with
          | Elem.rect x _ _ _ _ _ => decide (x ≠ 60)
          | _ => false)) = true :=
  ⟨by decide, by decide, by decide⟩

/-- C4 (amended to the generators that do duplicate edges, here proved for
`geoOverlappingCircles`): for every digest and every grid cell, the
column-0 cells have a counterpart shifted by exactly the declared grid
width (`6 · radius`), the row-0 cells one shifted by the grid height, and
cell (0,0) additionally the diagonal corner copy — each with identical
style and size, differing only by that translation. -/
theorem C4_edge_duplication (hash : String) (x y : Nat) (hx : x < 6)
    (hy : y < 6) :
    (6 : QS3) * ocRadius hash = (geoOverlappingCircles hash SVG.empty).width
    ∧ (6 : QS3) * ocRadius hash = (geoOverlappingCircles hash SVG.empty).height
    ∧ Elem.circle ((x : QS3) * ocRadius hash) ((y : QS3) * ocRadius hash)
        (ocRadius hash) (ocCellStyles hash (6 * y + x))
        ∈ (geoOverlappingCircles hash SVG.empty).children
    ∧ (x = 0 →
        Elem.circle (6 * ocRadius hash) ((y : QS3) * ocRadius hash)
          (ocRadius hash) (ocCellStyles hash (6 * y + x))
          ∈ (geoOverlappingCircles hash SVG.empty).children)
    ∧ (y = 0 →
        Elem.circle ((x : QS3) * ocRadius hash) (6 * ocRadius hash)
          (ocRadius hash) (ocCellStyles hash (6 * y + x))
          ∈ (geoOverlappingCircles hash SVG.empty).children)
    ∧ (x = 0 → y = 0 →
        Elem.circle (6 * ocRadius hash) (6 * ocRadius hash)
          (ocRadius hash) (ocCellStyles hash (6 * y + x))
          ∈ (geoOverlappingCircles hash SVG.empty).children) := by
  have hcell : ((y, x) : Nat × Nat) ∈ cells66 := by
    simp only [cells66, List.mem_flatMap, List.mem_map, List.mem_range]
    exact ⟨y, hy, x, hx, rfl⟩
  have hch : (geoOverlappingCircles hash SVG.empty).children =
      cells66.flatMap
        (fun yx => overlappingCirclesCell hash (ocRadius hash) yx.1 yx.2) := by
    simp [geoOverlappingCircles, ocRadius, SVG.addAll, SVG.setWidth,
      SVG.setHeight, SVG.empty]
  refine ⟨QS3.mul_comm 6 (ocRadius hash), QS3.mul_comm 6 (ocRadius hash),
    ?_, ?_, ?_, ?_⟩
  · rw [hch]
    refine List.mem_flatMap_of_mem hcell ?_
    simp [overlappingCirclesCell, ocCellStyles]
  · intro hx0
    subst hx0
    rw [hch]
    refine List.mem_flatMap_of_mem hcell ?_
    simp [overlappingCirclesCell, ocCellStyles]
  · intro hy0
    subst hy0
    rw [hch]
    refine List.mem_flatMap_of_mem hcell ?_
    simp [overlappingCirclesCell, ocCellStyles]
  · intro hx0 hy0
    subst hx0
    subst hy0
    rw [hch]
    refine List.mem_flatMap_of_mem hcell ?_
    simp [overlappingCirclesCell, ocCellStyles]

theorem C4_edge_duplication_witness :
    (6 : QS3) * ocRadius "0000000000000000000000000000000000000000" =
      (geoOverlappingCircles "0000000000000000000000000000000000000000"
        SVG.empty).width
    ∧ (6 : QS3) * ocRadius "0000000000000000000000000000000000000000" =
      (geoOverlappingCircles "0000000000000000000000000000000000000000"
        SVG.empty).height
    ∧ Elem.circle ((0 : Nat) * ocRadius "0000000000000000000000000000000000000000")
        ((0 : Nat) * ocRadius "0000000000000000000000000000000000000000")
        (ocRadius "0000000000000000000000000000000000000000")
        (ocCellStyles "0000000000000000000000000000000000000000" (6 * 0 + 0))
        ∈ (geoOverlappingCircles "0000000000000000000000000000000000000000"
            SVG.empty).children
    ∧ ((0 : Nat) = 0 →
        Elem.circle (6 * ocRadius "0000000000000000000000000000000000000000")
          ((0 : Nat) * ocRadius "0000000000000000000000000000000000000000")
          (ocRadius "0000000000000000000000000000000000000000")
          (ocCellStyles "0000000000000000000000000000000000000000" (6 * 0 + 0))
          ∈ (geoOverlappingCircles "0000000000000000000000000000000000000000"
              SVG.empty).children)
    ∧ ((0 : Nat) = 0 →
        Elem.circle ((0 : Nat) * ocRadius "0000000000000000000000000000000000000000")
          (6 * ocRadius "0000000000000000000000000000000000000000")
          (ocRadius "0000000000000000000000000000000000000000")
          (ocCellStyles "0000000000000000000000000000000000000000" (6 * 0 + 0))
          ∈ (geoOverlappingCircles "0000000000000000000000000000000000000000"
              SVG.empty).children)
    ∧ ((0 : Nat) = 0 → (0 : Nat) = 0 →
        Elem.circle (6 * ocRadius "0000000000000000000000000000000000000000")
          (6 * ocRadius "0000000000000000000000000000000000000000")
          (ocRadius "0000000000000000000000000000000000000000")
          (ocCellStyles "0000000000000000000000000000000000000000" (6 * 0 + 0))
          ∈ (geoOverlappingCircles "0000000000000000000000000000000000000000"
              SVG.empty).children) :=
  C4_edge_duplication "0000000000000000000000000000000000000000" 0 0
    (by decide) (by decide)

/-- C6: without a truthy color override, the resolved background HSL is the
claim's formula: hue offset = 3-nibble value at digest offset 14 remapped
from `[0,4095]` to `[0,359]` (i.e. `v·359/4095`); new hue
`((baseHue·360 − hueOffset + 360) mod 360)/360`; with the nibble at offset
17 as saturation offset, saturation moves up with `min 1` clamping when the
offset is even and down with `max 0` clamping when odd. -/
theorem C6_background_formula (hash : String) (o : Options)
    (hv : isValidDigest hash = true) (hc : truthy o.color = false) :
    backgroundRgb hash (mergeOptions o) =
      (let base := rgb2hsl (hex2rgb ((mergeOptions o).baseColor))
       let hueOffset : Rat := (hexValD hash 14 3 : Rat) * 359 / 4095
       let satOffset := hexValD hash 17 1
       hsl2rgb
        { h := qmod (base.h * 360 - hueOffset + 360) 360 / 360,
          s := if satOffset % 2 = 0 then
                 jsMin 1 ((base.s * 100 + (satOffset : Rat)) / 100)
               else jsMax 0 ((base.s * 100 - (satOffset : Rat)) / 100),
          l := base.l }) := by
  have hmap : map (hexValD hash 14 3 : Rat) 0 4095 0 359
      = (hexValD hash 14 3 : Rat) * 359 / 4095 := by
    simp [map]
  simp only [backgroundRgb, mergeOptions, hc, Bool.false_eq_true, if_false, hmap]

theorem C6_background_formula_witness :
    backgroundRgb "0123456789abcdef0123456789abcdef01234567"
      (mergeOptions {}) =
      (let base := rgb2hsl (hex2rgb ((mergeOptions {}).baseColor))
       let hueOffset : Rat :=
         (hexValD "0123456789abcdef0123456789abcdef01234567" 14 3 : Rat)
           * 359 / 4095
       let satOffset := hexValD "0123456789abcdef0123456789abcdef01234567" 17 1
       hsl2rgb
        { h := qmod (base.h * 360 - hueOffset + 360) 360 / 360,
          s := if satOffset % 2 = 0 then
                 jsMin 1 ((base.s * 100 + (satOffset : Rat)) / 100)
               else jsMax 0 ((base.s * 100 - (satOffset : Rat)) / 100),
          l := base.l }) :=
  C6_background_formula "0123456789abcdef0123456789abcdef01234567" {}
    (by decide) (by decide)

/-- C9: on every valid 40-hex digest, every read any of the sixteen
generators performs — and the background-resolution and default-selection
reads — stays in bounds: index `≤ 39` (39 being the largest single-nibble
read), length at least 1, `index + length ≤ 40`, and the parsed substring
is non-empty valid hex, so `hexVal` never yields `NaN`. -/
theorem C9_reads_in_bounds (hash : String) (hv : isValidDigest hash = true) :
    ∀ g ∈ PATTERNS, ∀ r ∈ backgroundReads ++ selectReads ++ readsOf g,
      r.1 ≤ 39 ∧ 1 ≤ r.2 ∧ r.1 + r.2 ≤ 40 ∧
        (hexVal hash r.1 r.2).isSome = true := by
  intro g hg r hr
  have hb : ((backgroundReads ++ selectReads ++ readsOf g).all
      (fun s => decide (s.1 ≤ 39) && decide (1 ≤ s.2)
        && decide (s.1 + s.2 ≤ 40))) = true := by
    fin_cases hg <;> decide
  have hbr := List.all_eq_true.mp hb r hr
  simp only [Bool.and_eq_true, decide_eq_true_eq] at hbr
  exact ⟨hbr.1.1, hbr.1.2, hbr.2,
    hexVal_isSome_of_valid hash hv r.1 r.2 (by omega)⟩

theorem C9_reads_in_bounds_witness :
    (14, 3).1 ≤ 39 ∧ 1 ≤ ((14, 3) : Nat × Nat).2 ∧ (14, 3).1 + (14, 3).2 ≤ 40 ∧
      (hexVal "0123456789abcdef0123456789abcdef01234567" (14, 3).1
        (14, 3).2).isSome = true :=
  C9_reads_in_bounds "0123456789abcdef0123456789abcdef01234567" (by decide)
    "concentricCircles" (by decide) (14, 3) (by decide)
